import Mathlib

/-!
Shallow embedding of the row-level authorization core of the Tea-and-Tales
bookstore: the PostgreSQL schema, the row-level-security policies, the
security-definer role resolver `get_current_user_role`, and the registration
trigger `handle_new_user`, all taken from the SQL migration files.

Modelling conventions:
* UUIDs are `Nat`; `auth.uid()` is an `Option Nat` (`none` = anonymous caller).
* SQL `NULL` in a scalar position is `Option.none`; the SQL comparison
  `auth.uid() = col` is not-true when `auth.uid()` is `NULL`, which the
  helper `uidEq` reproduces.
* All policies in the migrations are created without `AS RESTRICTIVE`, so
  they are PERMISSIVE: for a given command, the applicable policies are
  combined with OR (a `FOR ALL` policy applies to every command; a
  `FOR SELECT` policy only to select, and so on).  For `UPDATE`, the ORed
  `USING` clauses gate the existing row and, since no policy declares a
  separate `WITH CHECK`, the same ORed clauses gate the updated row.
* Timestamp columns (`created_at`, `updated_at`) are omitted: no policy,
  function or trigger in the repository reads them.
-/

namespace TeaTales

abbrev Uuid := Nat

/-- `public.user_role AS ENUM ('customer', 'admin')`. -/
inductive UserRole
  | customer
  | admin
  deriving DecidableEq, Repr

/-- `public.order_status AS ENUM ('pending','confirmed','shipped','delivered','cancelled')`. -/
inductive OrderStatus
  | pending
  | confirmed
  | shipped
  | delivered
  | cancelled
  deriving DecidableEq, Repr

/-- A SQL command class, as used in `CREATE POLICY ... FOR <command>`. -/
inductive Command
  | select
  | insert
  | update
  | delete
  deriving DecidableEq, Repr

/-- A row of `public.profiles` (the principal registry). -/
structure Profile where
  id : Uuid
  email : String
  full_name : Option String
  phone : Option String
  address : Option String
  role : UserRole
  is_blocked : Bool
  deriving DecidableEq, Repr

/-- A row of `public.categories`. -/
structure Category where
  id : Uuid
  name : String
  description : Option String
  deriving DecidableEq, Repr

/-- A row of `public.books`.  Monetary amounts are kept in cents as `Nat`;
no policy reads them. -/
structure Book where
  id : Uuid
  title : String
  author : String
  isbn : Option String
  description : Option String
  price : Nat
  original_price : Option Nat
  category_id : Option Uuid
  image_url : Option String
  stock_quantity : Nat
  rating : Nat
  review_count : Nat
  is_featured : Bool
  deriving DecidableEq, Repr

/-- A row of `public.cart_items`. -/
structure CartItem where
  id : Uuid
  user_id : Uuid
  book_id : Uuid
  quantity : Nat
  deriving DecidableEq, Repr

/-- A row of `public.orders`. -/
structure Order where
  id : Uuid
  user_id : Uuid
  total_amount : Nat
  status : OrderStatus
  shipping_address : String
  deriving DecidableEq, Repr

/-- A row of `public.order_items`. -/
structure OrderItem where
  id : Uuid
  order_id : Uuid
  book_id : Uuid
  quantity : Nat
  price : Nat
  deriving DecidableEq, Repr

/-- A row of `public.reviews`. -/
structure Review where
  id : Uuid
  user_id : Uuid
  book_id : Uuid
  rating : Nat
  comment : Option String
  deriving DecidableEq, Repr

/-- The database state: the tables the policies and the trigger touch. -/
structure Db where
  profiles : List Profile
  categories : List Category
  books : List Book
  cart_items : List CartItem
  orders : List Order
  order_items : List OrderItem
  reviews : List Review
  deriving Repr

/-- SQL `auth.uid() = x`: not-true (hence false for policy purposes) when
the caller is anonymous (`auth.uid()` is NULL). -/
def uidEq (uid : Option Uuid) (x : Uuid) : Bool :=
  match uid with
  | none => false
  | some u => u == x

/-- `public.get_current_user_role()` (SECURITY DEFINER):
`SELECT role FROM public.profiles WHERE id = auth.uid()`.
Zero matching rows — anonymous caller or a caller with no registry row —
yield SQL NULL, i.e. `none`; the function never raises. -/
def get_current_user_role (db : Db) (uid : Option Uuid) : Option UserRole :=
  match uid with
  | none => none
  | some u => (db.profiles.find? (fun p => p.id == u)).map (fun p => p.role)

/-! ### Individual policies, named after the `CREATE POLICY` statements -/

/-- Policy (profiles, SELECT): `USING (auth.uid() = id)`. -/
def usersCanViewTheirOwnProfile (uid : Option Uuid) (row : Profile) : Bool :=
  uidEq uid row.id

/-- Policy (profiles, UPDATE): `USING (auth.uid() = id)`. -/
def usersCanUpdateTheirOwnProfile (uid : Option Uuid) (row : Profile) : Bool :=
  uidEq uid row.id

/-- Policy (profiles, SELECT), as recreated by the security-definer
migration: `USING (public.get_current_user_role() = 'admin')`. -/
def adminsCanViewAllProfiles (db : Db) (uid : Option Uuid) : Bool :=
  get_current_user_role db uid == some UserRole.admin

/-- Policy (profiles, ALL), named `Blocked users cannot access data`:
`USING (NOT is_blocked OR auth.uid() = id OR get_current_user_role() = 'admin')`.
Created without `AS RESTRICTIVE`, so it is a PERMISSIVE policy ORed with
the other profiles policies. -/
def blockedUsersCannotAccessData (db : Db) (uid : Option Uuid) (row : Profile) : Bool :=
  !row.is_blocked || uidEq uid row.id
    || (get_current_user_role db uid == some UserRole.admin)

/-- Policy (categories, SELECT): `USING (true)`. -/
def anyoneCanViewCategories : Bool :=
  true

/-- Policy (categories, ALL): `USING (public.get_current_user_role() = 'admin')`. -/
def adminsCanManageCategories (db : Db) (uid : Option Uuid) : Bool :=
  get_current_user_role db uid == some UserRole.admin

/-- Policy (books, SELECT): `USING (true)`. -/
def anyoneCanViewBooks : Bool :=
  true

/-- Policy (books, ALL): `USING (public.get_current_user_role() = 'admin')`. -/
def adminsCanManageBooks (db : Db) (uid : Option Uuid) : Bool :=
  get_current_user_role db uid == some UserRole.admin

/-- Policy (cart_items, ALL): `USING (auth.uid() = user_id)`. -/
def usersCanManageTheirOwnCart (uid : Option Uuid) (row : CartItem) : Bool :=
  uidEq uid row.user_id

/-- Policy (orders, SELECT): `USING (auth.uid() = user_id)`. -/
def usersCanViewTheirOwnOrders (uid : Option Uuid) (row : Order) : Bool :=
  uidEq uid row.user_id

/-- Policy (orders, INSERT): `WITH CHECK (auth.uid() = user_id)`. -/
def usersCanCreateTheirOwnOrders (uid : Option Uuid) (row : Order) : Bool :=
  uidEq uid row.user_id

/-- Policy (orders, SELECT): `USING (public.get_current_user_role() = 'admin')`. -/
def adminsCanViewAllOrders (db : Db) (uid : Option Uuid) : Bool :=
  get_current_user_role db uid == some UserRole.admin

/-- Policy (orders, UPDATE): `USING (public.get_current_user_role() = 'admin')`. -/
def adminsCanUpdateOrders (db : Db) (uid : Option Uuid) : Bool :=
  get_current_user_role db uid == some UserRole.admin

/-- Shared body of the two own-order-item policies:
`EXISTS (SELECT 1 FROM public.orders WHERE id = order_id AND user_id = auth.uid())`. -/
def callerOwnsParentOrder (db : Db) (uid : Option Uuid) (row : OrderItem) : Bool :=
  db.orders.any (fun o => o.id == row.order_id && uidEq uid o.user_id)

/-- Policy (order_items, SELECT): caller owns the referenced parent order. -/
def usersCanViewTheirOwnOrderItems (db : Db) (uid : Option Uuid) (row : OrderItem) : Bool :=
  callerOwnsParentOrder db uid row

/-- Policy (order_items, INSERT): caller owns the referenced parent order. -/
def usersCanCreateOrderItemsForTheirOrders (db : Db) (uid : Option Uuid) (row : OrderItem) : Bool :=
  callerOwnsParentOrder db uid row

/-- Policy (order_items, SELECT): `USING (public.get_current_user_role() = 'admin')`. -/
def adminsCanViewAllOrderItems (db : Db) (uid : Option Uuid) : Bool :=
  get_current_user_role db uid == some UserRole.admin

/-! ### Combined (ORed) admission per table and command -/

/-- Profiles SELECT: OR of the three applicable permissive policies. -/
def profilesSelectAllowed (db : Db) (uid : Option Uuid) (row : Profile) : Bool :=
  usersCanViewTheirOwnProfile uid row
    || adminsCanViewAllProfiles db uid
    || blockedUsersCannotAccessData db uid row

/-- Profiles UPDATE: the ORed `USING` clauses gate the existing row, and —
no policy declaring `WITH CHECK` — the same ORed clauses gate the new row. -/
def profilesUpdateAllowed (db : Db) (uid : Option Uuid) (oldRow newRow : Profile) : Bool :=
  (usersCanUpdateTheirOwnProfile uid oldRow || blockedUsersCannotAccessData db uid oldRow)
    && (usersCanUpdateTheirOwnProfile uid newRow || blockedUsersCannotAccessData db uid newRow)

/-- Categories: the SELECT policy applies only to select; the ALL policy to
every command.  No categories policy reads row columns. -/
def categoriesAllowed (db : Db) (uid : Option Uuid) (cmd : Command) : Bool :=
  (cmd == Command.select && anyoneCanViewCategories) || adminsCanManageCategories db uid

/-- Books: the SELECT policy applies only to select; the ALL policy to
every command.  No books policy reads row columns. -/
def booksAllowed (db : Db) (uid : Option Uuid) (cmd : Command) : Bool :=
  (cmd == Command.select && anyoneCanViewBooks) || adminsCanManageBooks db uid

/-- Cart items: the single ALL policy gates every command, including the
insert check on the new row. -/
def cartItemsAllowed (uid : Option Uuid) (row : CartItem) (_cmd : Command) : Bool :=
  usersCanManageTheirOwnCart uid row

/-- Orders SELECT: own-row policy OR admin policy. -/
def ordersSelectAllowed (db : Db) (uid : Option Uuid) (row : Order) : Bool :=
  usersCanViewTheirOwnOrders uid row || adminsCanViewAllOrders db uid

/-- Orders INSERT: the only applicable policy is the `WITH CHECK` one. -/
def ordersInsertAllowed (uid : Option Uuid) (row : Order) : Bool :=
  usersCanCreateTheirOwnOrders uid row

/-- Orders UPDATE: the only applicable policy is the admin one, whose
`USING` clause reads no row columns, so neither the current row nor the
updated row constrains admission. -/
def ordersUpdateAllowed (db : Db) (uid : Option Uuid) (_oldRow _newRow : Order) : Bool :=
  adminsCanUpdateOrders db uid

/-- Order items SELECT: own-parent-order policy OR admin policy. -/
def orderItemsSelectAllowed (db : Db) (uid : Option Uuid) (row : OrderItem) : Bool :=
  usersCanViewTheirOwnOrderItems db uid row || adminsCanViewAllOrderItems db uid

/-- Order items INSERT: the only applicable policy is the `WITH CHECK` one. -/
def orderItemsInsertAllowed (db : Db) (uid : Option Uuid) (row : OrderItem) : Bool :=
  usersCanCreateOrderItemsForTheirOrders db uid row

/-! ### Registration hook -/

/-- A freshly created row of `auth.users`, as seen by the trigger
(`new.id`, `new.email`, `new.raw_user_meta_data->>'full_name'`). -/
structure AuthUser where
  id : Uuid
  email : String
  raw_full_name : Option String
  deriving DecidableEq, Repr

def duplicateKeyError : String :=
  "duplicate key value violates unique constraint profiles_pkey"

/-- The registry row the trigger inserts for a fresh identity: the listed
columns from `new`, with `COALESCE(new.raw_user_meta_data->>'full_name', '')`
for the display name, and the column defaults `role = 'customer'`,
`is_blocked = false` for the columns the insert leaves out. -/
def freshProfile (u : AuthUser) : Profile :=
  { id := u.id
    email := u.email
    full_name := some (match u.raw_full_name with
      | some s => s
      | none => "")
    phone := none
    address := none
    role := UserRole.customer
    is_blocked := false }

/-- `public.handle_new_user()`:
`INSERT INTO public.profiles (id, email, full_name) VALUES (new.id, new.email, COALESCE(new.raw_user_meta_data->>'full_name', ''))`.
The insert carries no `ON CONFLICT` clause, so a row whose primary key
already exists makes it raise a uniqueness violation; otherwise the row is
appended. -/
def handle_new_user (db : Db) (u : AuthUser) : Except String Db :=
  if db.profiles.any (fun p => p.id == u.id) then
    Except.error duplicateKeyError
  else
    Except.ok { db with profiles := db.profiles ++ [freshProfile u] }

/-! ### Concrete fixtures used by the closed evaluations and witnesses -/

def emptyDb : Db :=
  { profiles := []
    categories := []
    books := []
    cart_items := []
    orders := []
    order_items := []
    reviews := [] }

def blockedCustomer : Profile :=
  { id := 1
    email := "blocked@example.com"
    full_name := some "Blocked Customer"
    phone := none
    address := none
    role := UserRole.customer
    is_blocked := true }

def plainCustomer : Profile :=
  { id := 2
    email := "plain@example.com"
    full_name := some "Plain Customer"
    phone := none
    address := none
    role := UserRole.customer
    is_blocked := false }

def registeredCustomer : Profile :=
  { id := 3
    email := "reader@example.com"
    full_name := some "Registered Reader"
    phone := none
    address := none
    role := UserRole.customer
    is_blocked := false }

def adminUser : Profile :=
  { id := 4
    email := "admin@admin.com"
    full_name := some "Admin User"
    phone := none
    address := none
    role := UserRole.admin
    is_blocked := false }

def dbBlockedPair : Db :=
  { emptyDb with profiles := [blockedCustomer, plainCustomer] }

def fictionCategory : Category :=
  { id := 20, name := "Fiction", description := none }

def adventureBook : Book :=
  { id := 30
    title := "The Great Adventure"
    author := "John Smith"
    isbn := none
    description := none
    price := 1999
    original_price := some 2499
    category_id := some 20
    image_url := none
    stock_quantity := 50
    rating := 4
    review_count := 128
    is_featured := true }

def dbStorefront : Db :=
  { emptyDb with
      profiles := [registeredCustomer]
      categories := [fictionCategory]
      books := [adventureBook] }

def newSignup : AuthUser :=
  { id := 7, email := "newuser@example.com", raw_full_name := none }

def confirmedOrder : Order :=
  { id := 10
    user_id := 2
    total_amount := 1999
    status := OrderStatus.confirmed
    shipping_address := "12 Tea Street" }

def dbShop : Db :=
  { emptyDb with
      profiles := [adminUser, plainCustomer, registeredCustomer]
      orders := [confirmedOrder] }

def orderLine : OrderItem :=
  { id := 11, order_id := 10, book_id := 30, quantity := 1, price := 1999 }

def teaCart : CartItem :=
  { id := 12, user_id := 2, book_id := 30, quantity := 2 }

end TeaTales

namespace TeaTales

/-- C1: the claim says a blocked non-admin reading a different principal
row is denied by the combined registry policies; at this concrete state the
caller (id 1) is blocked and not an admin, the target row (id 2) belongs to
a different principal, and the ORed permissive policies nevertheless admit
the read, through the `NOT is_blocked` branch of the permissive policy
named `Blocked users cannot access data` evaluated on the target row. -/
theorem c1_blocked_caller_cross_read_admitted :
    blockedCustomer.is_blocked = true
      ∧ get_current_user_role dbBlockedPair (some blockedCustomer.id) = some UserRole.customer
      ∧ blockedCustomer.id ≠ plainCustomer.id
      ∧ profilesSelectAllowed dbBlockedPair (some blockedCustomer.id) plainCustomer = true := by
  decide

/-- C2: the claim says an anonymous caller may read catalog items and
categories but is denied on every registry row; at this concrete state the
two catalog reads are admitted as claimed, yet the anonymous read of a
non-blocked registry row is also admitted, through the `NOT is_blocked`
branch of the permissive policy named `Blocked users cannot access data`. -/
theorem c2_anonymous_profile_read_admitted :
    categoriesAllowed dbStorefront none Command.select = true
      ∧ booksAllowed dbStorefront none Command.select = true
      ∧ registeredCustomer.is_blocked = false
      ∧ profilesSelectAllowed dbStorefront none registeredCustomer = true := by
  decide

/-- C3 counterexample: firing the registration hook twice for the same
identity is not a safe no-op — the first firing succeeds and the second
raises a primary-key uniqueness violation, because the insert in
`handle_new_user` has no conflict-ignore clause. -/
theorem c3_second_firing_raises :
    handle_new_user emptyDb newSignup
        = Except.ok { emptyDb with profiles := [freshProfile newSignup] }
      ∧ handle_new_user { emptyDb with profiles := [freshProfile newSignup] } newSignup
        = Except.error duplicateKeyError :=
  ⟨rfl, rfl⟩

/-- C3 amended: when no registry row with the new identity exists yet, the
first firing of the hook creates exactly one row for that identity, and a
second firing for the same identity raises a uniqueness-violation error
(rather than being ignored); no duplicate row is ever created. -/
theorem c3_amended_second_firing_errors (db : Db) (u : AuthUser)
    (h : ∀ p ∈ db.profiles, p.id ≠ u.id) :
    ∃ db1, handle_new_user db u = Except.ok db1
      ∧ db1.profiles.countP (fun p => p.id == u.id) = 1
      ∧ handle_new_user db1 u = Except.error duplicateKeyError := by
  have hany : db.profiles.any (fun p => p.id == u.id) = false := by
    rw [List.any_eq_false]
    intro p hp
    simpa using h p hp
  refine ⟨{ db with profiles := db.profiles ++ [freshProfile u] }, ?_, ?_, ?_⟩
  · simp [handle_new_user, hany]
  · have hzero : db.profiles.countP (fun p => p.id == u.id) = 0 := by
      rw [List.countP_eq_zero]
      intro p hp
      simpa using h p hp
    simp [List.countP_append, hzero, freshProfile]
  · simp [handle_new_user, List.any_append, hany, freshProfile]

/-- C3 amended, witness at a concrete state: the empty database and the
fixture signup. -/
theorem c3_amended_second_firing_errors_witness :
    ∃ db1, handle_new_user emptyDb newSignup = Except.ok db1
      ∧ db1.profiles.countP (fun p => p.id == newSignup.id) = 1
      ∧ handle_new_user db1 newSignup = Except.error duplicateKeyError :=
  c3_amended_second_firing_errors emptyDb newSignup (by simp [emptyDb])

/-- C4: the registry update admission for a self-update checks only that the
caller identity equals the row identity — any new row content with the same
identity is admitted, with no restriction on which columns change, so the
policy layer itself admits a self-update of the role or blocked fields. -/
theorem c4_self_update_unrestricted_columns (db : Db) (u : Uuid)
    (oldRow newRow : Profile) (hOld : oldRow.id = u) (hNew : newRow.id = u) :
    profilesUpdateAllowed db (some u) oldRow newRow = true := by
  simp [profilesUpdateAllowed, usersCanUpdateTheirOwnProfile, uidEq, hOld, hNew]

/-- C4 witness: a customer setting their own role to admin in a self-update
is admitted by the policy layer. -/
theorem c4_self_update_unrestricted_columns_witness :
    profilesUpdateAllowed dbBlockedPair (some 2) plainCustomer
      { plainCustomer with role := UserRole.admin } = true :=
  c4_self_update_unrestricted_columns dbBlockedPair 2 plainCustomer
    { plainCustomer with role := UserRole.admin } rfl rfl

/-- C5: an order insert is admitted exactly when the owner field of the new
row equals the caller identity; an insert naming any other identity is
denied, as is any insert by an anonymous caller. -/
theorem c5_order_insert_iff_owner (u : Uuid) (row : Order) :
    (row.user_id = u → ordersInsertAllowed (some u) row = true)
      ∧ (row.user_id ≠ u → ordersInsertAllowed (some u) row = false)
      ∧ ordersInsertAllowed none row = false := by
  refine ⟨fun h => ?_, fun h => ?_, rfl⟩
  · simp [ordersInsertAllowed, usersCanCreateTheirOwnOrders, uidEq, h]
  · simp [ordersInsertAllowed, usersCanCreateTheirOwnOrders, uidEq]
    exact fun e => h e.symm

/-- C5 witness: the fixture order owned by principal 2 may be inserted by
principal 2 and not by principal 3. -/
theorem c5_order_insert_iff_owner_witness :
    ordersInsertAllowed (some 2) confirmedOrder = true
      ∧ ordersInsertAllowed (some 3) confirmedOrder = false :=
  ⟨(c5_order_insert_iff_owner 2 confirmedOrder).1 rfl,
   (c5_order_insert_iff_owner 3 confirmedOrder).2.1 (by decide)⟩

/-- C6: for every non-select command on categories and books, admission
holds exactly when the resolved role of the caller is admin; in particular
every caller whose resolved role is customer or absent is denied. -/
theorem c6_catalog_write_iff_admin (db : Db) (uid : Option Uuid) (cmd : Command)
    (h : cmd ≠ Command.select) :
    (categoriesAllowed db uid cmd = true
        ↔ get_current_user_role db uid = some UserRole.admin)
      ∧ (booksAllowed db uid cmd = true
        ↔ get_current_user_role db uid = some UserRole.admin) := by
  have hc : (cmd == Command.select) = false := by
    simpa using h
  constructor
  · simp [categoriesAllowed, adminsCanManageCategories, anyoneCanViewCategories, hc]
  · simp [booksAllowed, adminsCanManageBooks, anyoneCanViewBooks, hc]

/-- C6 witness: the fixture admin (id 4) may insert a category and delete a
book. -/
theorem c6_catalog_write_iff_admin_witness :
    categoriesAllowed dbShop (some 4) Command.insert = true
      ∧ booksAllowed dbShop (some 4) Command.delete = true :=
  ⟨((c6_catalog_write_iff_admin dbShop (some 4) Command.insert (by decide)).1).mpr rfl,
   ((c6_catalog_write_iff_admin dbShop (some 4) Command.delete (by decide)).2).mpr rfl⟩

/-- C7: an order status update — the current status and the target status
both arbitrary — is admitted when the resolved role of the caller is admin
and denied for every caller whose resolved role is not admin. -/
theorem c7_order_status_update_admin_only (db : Db) (uid : Option Uuid)
    (o : Order) (s : OrderStatus) :
    (get_current_user_role db uid = some UserRole.admin →
        ordersUpdateAllowed db uid o { o with status := s } = true)
      ∧ (get_current_user_role db uid ≠ some UserRole.admin →
        ordersUpdateAllowed db uid o { o with status := s } = false) := by
  constructor
  · intro h
    simp [ordersUpdateAllowed, adminsCanUpdateOrders, h]
  · intro h
    simp [ordersUpdateAllowed, adminsCanUpdateOrders, h]

/-- C7 witness: setting the fixture order from confirmed to delivered is
admitted for the admin (id 4) and denied for the customer (id 2). -/
theorem c7_order_status_update_admin_only_witness :
    ordersUpdateAllowed dbShop (some 4) confirmedOrder
        { confirmedOrder with status := OrderStatus.delivered } = true
      ∧ ordersUpdateAllowed dbShop (some 2) confirmedOrder
        { confirmedOrder with status := OrderStatus.delivered } = false :=
  ⟨(c7_order_status_update_admin_only dbShop (some 4) confirmedOrder
      OrderStatus.delivered).1 rfl,
   (c7_order_status_update_admin_only dbShop (some 2) confirmedOrder
      OrderStatus.delivered).2 (by decide)⟩

/-- C8: an order line item insert is admitted exactly when some order in the
database carries the referenced id and is owned by the caller; a select on a
line item whose parent order is owned by nobody matching the caller is
denied unless the resolved role is admin, and admitted when it is admin. -/
theorem c8_order_items_policies (db : Db) (u : Uuid) (row : OrderItem) :
    (orderItemsInsertAllowed db (some u) row = true
        ↔ ∃ o, o ∈ db.orders ∧ o.id = row.order_id ∧ u = o.user_id)
      ∧ ((∀ o ∈ db.orders, o.id = row.order_id → o.user_id ≠ u) →
        get_current_user_role db (some u) ≠ some UserRole.admin →
        orderItemsSelectAllowed db (some u) row = false)
      ∧ (get_current_user_role db (some u) = some UserRole.admin →
        orderItemsSelectAllowed db (some u) row = true) := by
  refine ⟨?_, fun hown hadm => ?_, fun h => ?_⟩
  · simp [orderItemsInsertAllowed, usersCanCreateOrderItemsForTheirOrders,
      callerOwnsParentOrder, List.any_eq_true, uidEq]
  · have h1 : db.orders.any (fun o => o.id == row.order_id && uidEq (some u) o.user_id)
        = false := by
      rw [List.any_eq_false]
      intro o ho hcontra
      rw [Bool.and_eq_true] at hcontra
      obtain ⟨ha, hb⟩ := hcontra
      have hb2 : u = o.user_id := by simpa [uidEq] using hb
      exact hown o ho (by simpa using ha) hb2.symm
    simp [orderItemsSelectAllowed, usersCanViewTheirOwnOrderItems, callerOwnsParentOrder,
      adminsCanViewAllOrderItems, h1]
    simpa using hadm
  · simp [orderItemsSelectAllowed, adminsCanViewAllOrderItems, h]

/-- C8 witness: the fixture line item under order 10 (owned by principal 2)
may be inserted by principal 2; principal 3 (a customer) cannot select it;
the admin (id 4) can select it. -/
theorem c8_order_items_policies_witness :
    orderItemsInsertAllowed dbShop (some 2) orderLine = true
      ∧ orderItemsSelectAllowed dbShop (some 3) orderLine = false
      ∧ orderItemsSelectAllowed dbShop (some 4) orderLine = true :=
  ⟨(c8_order_items_policies dbShop 2 orderLine).1.mpr
      ⟨confirmedOrder, by decide, rfl, rfl⟩,
   (c8_order_items_policies dbShop 3 orderLine).2.1 (by decide) (by decide),
   (c8_order_items_policies dbShop 4 orderLine).2.2 rfl⟩

/-- C9: when the caller has no registry row, the role resolver returns none
(absent) — the lookup is total, it cannot raise — and every admin predicate
then evaluates to false, so the caller is treated as unprivileged. -/
theorem c9_absent_principal_not_admin (db : Db) (u : Uuid)
    (h : db.profiles.find? (fun p => p.id == u) = none) :
    get_current_user_role db (some u) = none
      ∧ adminsCanViewAllProfiles db (some u) = false
      ∧ adminsCanManageCategories db (some u) = false
      ∧ adminsCanManageBooks db (some u) = false
      ∧ adminsCanViewAllOrders db (some u) = false
      ∧ adminsCanUpdateOrders db (some u) = false
      ∧ adminsCanViewAllOrderItems db (some u) = false := by
  have hrole : get_current_user_role db (some u) = none := by
    simp [get_current_user_role, h]
  refine ⟨hrole, ?_, ?_, ?_, ?_, ?_, ?_⟩ <;>
    simp only [adminsCanViewAllProfiles, adminsCanManageCategories, adminsCanManageBooks,
      adminsCanViewAllOrders, adminsCanUpdateOrders, adminsCanViewAllOrderItems, hrole] <;>
    rfl

/-- C9 witness: principal 42 has no row in the empty database and resolves
to absent, failing every admin predicate. -/
theorem c9_absent_principal_not_admin_witness :
    get_current_user_role emptyDb (some 42) = none
      ∧ adminsCanViewAllProfiles emptyDb (some 42) = false
      ∧ adminsCanManageCategories emptyDb (some 42) = false
      ∧ adminsCanManageBooks emptyDb (some 42) = false
      ∧ adminsCanViewAllOrders emptyDb (some 42) = false
      ∧ adminsCanUpdateOrders emptyDb (some 42) = false
      ∧ adminsCanViewAllOrderItems emptyDb (some 42) = false :=
  c9_absent_principal_not_admin emptyDb 42 rfl

/-- C10: every command on a cart row is admitted exactly when the caller is
authenticated as the row owner; a caller authenticated as anyone else, or an
anonymous caller, is denied every command. -/
theorem c10_cart_owner_only (uid : Uuid) (row : CartItem) (cmd : Command) :
    (row.user_id = uid → cartItemsAllowed (some uid) row cmd = true)
      ∧ (row.user_id ≠ uid → cartItemsAllowed (some uid) row cmd = false)
      ∧ cartItemsAllowed none row cmd = false := by
  refine ⟨fun h => ?_, fun h => ?_, rfl⟩
  · simp [cartItemsAllowed, usersCanManageTheirOwnCart, uidEq, h]
  · simp [cartItemsAllowed, usersCanManageTheirOwnCart, uidEq]
    exact fun e => h e.symm

/-- C10 witness: the fixture cart row owned by principal 2 is manageable by
principal 2, and denied to principal 3 and to the anonymous caller. -/
theorem c10_cart_owner_only_witness :
    cartItemsAllowed (some 2) teaCart Command.update = true
      ∧ cartItemsAllowed (some 3) teaCart Command.delete = false
      ∧ cartItemsAllowed none teaCart Command.select = false :=
  ⟨(c10_cart_owner_only 2 teaCart Command.update).1 rfl,
   (c10_cart_owner_only 3 teaCart Command.delete).2.1 (by decide),
   (c10_cart_owner_only 3 teaCart Command.select).2.2⟩

end TeaTales
